import Mathlib

/-!
Shallow embedding of the `media_organizer` package (src/media_organizer/),
covering the data model (`metadata.py`), the template renderer
(`templates.py`), the configuration (`config.py`) and the organizer
(`organizer.py`).  Pure Python functions become Lean functions; the
filesystem reads performed by the metadata extractors and the existence
probes of the collision loop are passed in as explicit oracle arguments;
filesystem writes are returned as an explicit effect list.  The unbounded
`while candidate.exists()` loop is unrolled with an explicit fuel
argument; every theorem that depends on the loop's result carries a
hypothesis guaranteeing the fuel suffices.
-/

deriving instance DecidableEq for Except

namespace MediaOrg

/-- ASCII `str.lower()` (the code only lowercases extensions and camera strings). -/
def strLower (s : String) : String := String.mk (s.toList.map Char.toLower)

/-- `str.strip()` with no argument: remove surrounding whitespace. -/
def strTrim (s : String) : String :=
  String.mk (((s.toList.dropWhile Char.isWhitespace).reverse.dropWhile Char.isWhitespace).reverse)

/-- Code-point lexicographic comparison on char lists, as Python compares strings. -/
def strListLe : List Char → List Char → Bool
  | [], _ => true
  | _ :: _, [] => false
  | a :: as, b :: bs =>
    if a.toNat < b.toNat then true
    else if b.toNat < a.toNat then false
    else strListLe as bs

/-- Code-point lexicographic `<=` on strings, as Python `sorted` orders them. -/
def strLe (a b : String) : Bool := strListLe a.toList b.toList

/-- Insert a string into a sorted list (insertion step of `sorted`). -/
def insertSorted (s : String) : List String → List String
  | [] => [s]
  | x :: xs => if strLe s x then s :: x :: xs else x :: insertSorted s xs

/-- Sort a list of strings in Python's `sorted` order. -/
def sortStrings : List String → List String
  | [] => []
  | x :: xs => insertSorted x (sortStrings xs)

/-- `MediaType` enum from metadata.py. -/
inductive MediaType
  | image
  | video
  | audio
  | document
  | other
deriving DecidableEq, Repr

/-- `MediaCategory` enum from metadata.py; each value carries a label and a folder name. -/
inductive MediaCategory
  | photos_videos
  | music
  | documents
  | other
deriving DecidableEq, Repr

/-- `MediaCategory.label` from metadata.py. -/
def MediaCategory.label : MediaCategory → String
  | .photos_videos => "Fotos y Videos"
  | .music => "Musica"
  | .documents => "Documentos"
  | .other => "Otros"

/-- `MediaCategory.folder_name` from metadata.py. -/
def MediaCategory.folder_name : MediaCategory → String
  | .photos_videos => "Fotos_y_Videos"
  | .music => "Musica"
  | .documents => "Documentos"
  | .other => "Otros"

/-- `TimestampSource` enum from metadata.py. -/
inductive TimestampSource
  | metadata
  | file_creation
  | file_modification
  | unknown
deriving DecidableEq, Repr

/-- A civil date-time (the fields of a Python `datetime` the code reads).
Timezone handling (`astimezone()`) is not modelled; instants are kept in UTC. -/
structure DateTime where
  year : Nat
  month : Nat
  day : Nat
  hour : Nat
  minute : Nat
  second : Nat
deriving DecidableEq, Repr

/-- A `pathlib.Path` to a regular file, pre-split the way the code reads it:
`dir` is the parent directory, `stem` the filename without extension, and
`suffix` the extension including the leading dot, in its original case. -/
structure PathParts where
  dir : String
  stem : String
  suffix : String
deriving DecidableEq, Repr

/-- `Path.name`: filename including the extension. -/
def PathParts.name (p : PathParts) : String := p.stem ++ p.suffix

/-- The full path string of the file. -/
def PathParts.full (p : PathParts) : String := p.dir ++ "/" ++ p.name

/-- `MediaMetadata` dataclass from metadata.py. -/
structure MediaMetadata where
  source_path : PathParts
  media_type : MediaType
  category : MediaCategory
  captured_at : DateTime
  camera_make : Option String := none
  camera_model : Option String := none
  original_name : Option String := none
  timestamp_source : TimestampSource := TimestampSource.metadata
deriving DecidableEq, Repr

/-- `MediaMetadata.stem` property: `source_path.stem`. -/
def MediaMetadata.stem (m : MediaMetadata) : String := m.source_path.stem

/-- `MediaMetadata.suffix` property: `source_path.suffix.lower()`. -/
def MediaMetadata.suffix (m : MediaMetadata) : String := strLower m.source_path.suffix

/-- `MediaMetadata.has_reliable_timestamp`: source in `{METADATA, FILE_CREATION}`. -/
def MediaMetadata.has_reliable_timestamp (m : MediaMetadata) : Bool :=
  match m.timestamp_source with
  | .metadata => true
  | .file_creation => true
  | _ => false

/-- `IMAGE_EXTENSIONS` from metadata.py. -/
def IMAGE_EXTENSIONS : List String :=
  [".jpg", ".jpeg", ".png", ".gif", ".bmp", ".tiff", ".tif", ".heic", ".heif",
   ".raw", ".cr2", ".nef", ".arw"]

/-- `VIDEO_EXTENSIONS` from metadata.py. -/
def VIDEO_EXTENSIONS : List String :=
  [".mp4", ".mov", ".m4v", ".mkv", ".avi", ".wmv", ".mpg", ".mpeg", ".3gp",
   ".webm", ".mts", ".m2ts"]

/-- `AUDIO_EXTENSIONS` from metadata.py. -/
def AUDIO_EXTENSIONS : List String :=
  [".mp3", ".aac", ".flac", ".wav", ".ogg", ".oga", ".m4a", ".wma", ".aiff", ".aif"]

/-- `DOCUMENT_EXTENSIONS` from metadata.py. -/
def DOCUMENT_EXTENSIONS : List String :=
  [".pdf", ".doc", ".docx", ".ppt", ".pptx", ".xls", ".xlsx", ".txt", ".rtf",
   ".odt", ".ods", ".odp"]

/-- `detect_media_type` from metadata.py: dispatch on the lowercased extension. -/
def detect_media_type (path : PathParts) : MediaType :=
  let suffix := strLower path.suffix
  if suffix ∈ IMAGE_EXTENSIONS then MediaType.image
  else if suffix ∈ VIDEO_EXTENSIONS then MediaType.video
  else if suffix ∈ AUDIO_EXTENSIONS then MediaType.audio
  else if suffix ∈ DOCUMENT_EXTENSIONS then MediaType.document
  else MediaType.other

/-- `resolve_category` from metadata.py. -/
def resolve_category : MediaType → MediaCategory
  | .image => MediaCategory.photos_videos
  | .video => MediaCategory.photos_videos
  | .audio => MediaCategory.music
  | .document => MediaCategory.documents
  | .other => MediaCategory.other

/-- `MONTH_NAMES_ES` from templates.py (index 0 unused). -/
def MONTH_NAMES_ES : List String :=
  ["", "enero", "febrero", "marzo", "abril", "mayo", "junio", "julio",
   "agosto", "septiembre", "octubre", "noviembre", "diciembre"]

/-- `MONTH_NAMES_ES_SHORT` from templates.py (index 0 unused). -/
def MONTH_NAMES_ES_SHORT : List String :=
  ["", "ene", "feb", "mar", "abr", "may", "jun", "jul", "ago", "sep", "oct",
   "nov", "dic"]

/-- `DEFAULT_TEMPLATES` from templates.py. -/
def DEFAULT_TEMPLATES : List (String × String) :=
  [("default", "\x7byear\x7d/\x7bmonth:02d\x7d"),
   ("year_month_day", "\x7byear\x7d/\x7bmonth:02d\x7d/\x7bday:02d\x7d"),
   ("camera", "\x7bcamera_make\x7d/\x7bcamera_model\x7d/\x7byear\x7d/\x7bmonth:02d\x7d"),
   ("year_month_name", "\x7byear\x7d/\x7bmonth_name\x7d"),
   ("year_month_name_short", "\x7byear\x7d/\x7bmonth_name_short\x7d")]

/-- `available_placeholders` from templates.py (a Python set, modelled as a
duplicate-free list). -/
def available_placeholders : List String :=
  ["year", "month", "day", "hour", "minute", "second", "stem", "ext",
   "camera_make", "camera_model", "month_name", "month_name_short"]

/-- A substitution-context value: Python stores ints and strings in the context. -/
inductive CtxVal
  | intVal (n : Nat)
  | strVal (s : String)
deriving DecidableEq, Repr

/-- Character class `[a-z0-9]` used by `_slug`'s regexes (after lowercasing). -/
def isSlugChar (c : Char) : Bool := ('a' ≤ c && c ≤ 'z') || c.isDigit

/-- Replace each maximal run of non-`[a-z0-9]` characters by a single hyphen,
the combined effect of the two `re.sub` calls in `_slug`. The flag records
whether the previous character was part of such a run (its hyphen is
already emitted). -/
def slugCollapse : Bool → List Char → List Char
  | _, [] => []
  | inRun, c :: rest =>
    if isSlugChar c then c :: slugCollapse false rest
    else if inRun then slugCollapse true rest
    else '-' :: slugCollapse true rest

/-- `_slug` from templates.py: lowercase, collapse non-alphanumeric runs to
hyphens, strip surrounding hyphens, defaulting to "unknown". -/
def _slug (value : String) : String :=
  let chars := (strLower (strTrim value)).toList
  let collapsed := slugCollapse false chars
  let stripped :=
    ((collapsed.dropWhile (fun c => c == '-')).reverse.dropWhile (fun c => c == '-')).reverse
  if stripped.isEmpty then "unknown" else String.mk stripped

/-- `suffix.lstrip(".")`: drop leading dots. -/
def lstripDots (s : String) : String :=
  String.mk (s.toList.dropWhile (fun c => c == '.'))

/-- First-match lookup in an association list, as reading a Python dict built
left to right with distinct keys. -/
def ctxLookup : List (String × CtxVal) → String → Option CtxVal
  | [], _ => none
  | (k', v) :: rest, k => if k' = k then some v else ctxLookup rest k

/-- Assign one key in an association list: replace the first binding of the key
or append a new one (one `dict.__setitem__`). -/
def setKey : List (String × CtxVal) → String → CtxVal → List (String × CtxVal)
  | [], k, v => [(k, v)]
  | (k', v') :: rest, k, v =>
    if k' = k then (k, v) :: rest else (k', v') :: setKey rest k v

/-- `dict.update(extra)`: assign every key of `extra` in order into `base`. -/
def dictUpdate (base : List (String × CtxVal)) : List (String × String) → List (String × CtxVal)
  | [] => base
  | (k, v) :: rest => dictUpdate (setKey base k (CtxVal.strVal v)) rest

/-- `build_context` from templates.py. The `camera_make`/`camera_model`
entries model Python truthiness: an absent or empty string maps to the
literal "unknown". The month-name indexing is total on real datetimes
(month between 1 and 12); out-of-range months read the list default. -/
def build_context (m : MediaMetadata) (extra : List (String × String)) : List (String × CtxVal) :=
  let dt := m.captured_at
  let cameraField (v : Option String) : String :=
    match v with
    | some s => if s = "" then "unknown" else _slug s
    | none => "unknown"
  let base : List (String × CtxVal) :=
    [("year", CtxVal.intVal dt.year),
     ("month", CtxVal.intVal dt.month),
     ("day", CtxVal.intVal dt.day),
     ("hour", CtxVal.intVal dt.hour),
     ("minute", CtxVal.intVal dt.minute),
     ("second", CtxVal.intVal dt.second),
     ("stem", CtxVal.strVal m.stem),
     ("ext", CtxVal.strVal (lstripDots m.suffix)),
     ("camera_make", CtxVal.strVal (cameraField m.camera_make)),
     ("camera_model", CtxVal.strVal (cameraField m.camera_model)),
     ("month_name", CtxVal.strVal (MONTH_NAMES_ES.getD dt.month "")),
     ("month_name_short", CtxVal.strVal (MONTH_NAMES_ES_SHORT.getD dt.month ""))]
  dictUpdate base extra

/-- Character class `[a-zA-Z_]` of `VALID_PLACEHOLDER_RE`. -/
def isIdentStart (c : Char) : Bool := c.isAlpha || c == '_'

/-- Character class `[a-zA-Z0-9_]` of `VALID_PLACEHOLDER_RE`. -/
def isIdentChar (c : Char) : Bool := c.isAlphanum || c == '_'

/-- Try to match `([a-zA-Z_][a-zA-Z0-9_]*)(:[^}]*)?}` right after an opening
brace; on success return the identifier, the optional format spec, and the
unconsumed remainder. -/
def parsePH : List Char → Option (String × Option String × List Char)
  | [] => none
  | c :: rest =>
    if isIdentStart c then
      let (idChars, rest1) := rest.span isIdentChar
      let name := String.mk (c :: idChars)
      match rest1 with
      | '}' :: rest2 => some (name, none, rest2)
      | ':' :: rest2 =>
        let (specChars, rest3) := rest2.span (fun d => d != '}')
        match rest3 with
        | '}' :: rest4 => some (name, some (String.mk specChars), rest4)
        | _ => none
      | _ => none
    else none

/-- One scanning pass of `VALID_PLACEHOLDER_RE.finditer`: at each `\x7b` try to
match a placeholder and continue after it, otherwise advance one character.
The fuel argument only bounds the recursion; `fuel = cs.length` always
suffices because every step consumes at least one character. -/
def scanAux : Nat → List Char → List (String × Option String)
  | 0, _ => []
  | _ + 1, [] => []
  | fuel + 1, c :: rest =>
    if c = '{' then
      match parsePH rest with
      | some (name, spec, rest') => (name, spec) :: scanAux fuel rest'
      | none => scanAux fuel rest
    else scanAux fuel rest

/-- All placeholder occurrences of a template, in order, with their specs. -/
def scan_placeholders (template : String) : List (String × Option String) :=
  scanAux template.toList.length template.toList

/-- Pad a numeral with leading zeros to the given width. -/
def padZeros (s : String) (width : Nat) : String :=
  if s.length < width then String.mk (List.replicate (width - s.length) '0') ++ s else s

/-- Decimal value of a digit string (the width in a format spec). -/
def digitsVal (ds : List Char) : Nat :=
  ds.foldl (fun acc c => acc * 10 + (c.toNat - '0'.toNat)) 0

/-- Apply a `0<width>d` format spec to an integer value; other specs (not used
by the repository's templates) fall back to the plain decimal form. -/
def applyIntSpec (n : Nat) (spec : String) : String :=
  match spec.toList with
  | '0' :: restc =>
    let (ds, restd) := restc.span Char.isDigit
    match restd with
    | ['d'] => padZeros (toString n) (digitsVal ds)
    | _ => toString n
  | _ => toString n

/-- Format one context value under an optional format spec, as
`str.format` does for the int and str values the context holds. A missing
key would be a `KeyError` in Python; after validation every placeholder
name is bound, so the empty-string default is unreachable in `render_template`. -/
def formatValue : Option CtxVal → Option String → String
  | some (CtxVal.intVal n), none => toString n
  | some (CtxVal.intVal n), some spec => applyIntSpec n spec
  | some (CtxVal.strVal s), _ => s
  | none, _ => ""

/-- Substitution pass of `template.format(**context)` over the same
placeholder grammar the validator scans (the repository's templates are
literal text plus such placeholders). Fuel as in `scanAux`. -/
def formatAux (ctx : List (String × CtxVal)) : Nat → List Char → String
  | 0, _ => ""
  | _ + 1, [] => ""
  | fuel + 1, c :: rest =>
    if c = '{' then
      match parsePH rest with
      | some (name, spec, rest') => formatValue (ctxLookup ctx name) spec ++ formatAux ctx fuel rest'
      | none => String.singleton c ++ formatAux ctx fuel rest
    else String.singleton c ++ formatAux ctx fuel rest

/-- `template.format(**context)` on the repository's template grammar. -/
def format_string (template : String) (ctx : List (String × CtxVal)) : String :=
  formatAux ctx template.toList.length template.toList

/-- The `unmatched` list computed by `_validate_template`: every scanned
placeholder name not in `available_placeholders | extra.keys()`, in scan
order, with duplicates. -/
def unknown_placeholders (template : String) (extra : List (String × String)) : List String :=
  let allowed := available_placeholders ++ extra.map Prod.fst
  ((scan_placeholders template).map Prod.fst).filter (fun n => !(allowed.contains n))

/-- The `ValueError` message of `_validate_template`:
`', '.join(sorted(set(unmatched)))` appended to the fixed prefix. -/
def validationMessage (unmatched : List String) : String :=
  "El template contiene placeholders desconocidos: " ++
    String.intercalate ", " (sortStrings unmatched.dedup)

/-- `_validate_template` from templates.py; raising becomes `Except.error`. -/
def _validate_template (template : String) (extra : List (String × String)) : Except String Unit :=
  let unmatched := unknown_placeholders template extra
  if unmatched.isEmpty then Except.ok ()
  else Except.error (validationMessage unmatched)

/-- `render_template` from templates.py; the returned `Path(relative)` is the
rendered relative path string. -/
def render_template (m : MediaMetadata) (template : String)
    (extra : List (String × String)) : Except String String :=
  match _validate_template template extra with
  | Except.error e => Except.error e
  | Except.ok _ => Except.ok (format_string template (build_context m extra))

/-- The fields of `os.stat_result` read by `_filesystem_timestamp`, in whole
epoch seconds. `st_birthtime` is `none` when the platform does not expose
birth time (`getattr` returns `None`). -/
structure Stat where
  st_birthtime : Option Nat := none
  st_mtime : Nat := 0
  st_ctime : Nat := 0
deriving DecidableEq, Repr

/-- `stat.st_mtime or stat.st_ctime`: mtime unless it is (falsy) zero. -/
def Stat.fallback_time (st : Stat) : Nat :=
  if st.st_mtime != 0 then st.st_mtime else st.st_ctime

/-- `datetime.fromtimestamp(t, tz=timezone.utc)`: epoch seconds to a UTC civil
date-time (standard civil-from-days conversion); `astimezone()` to the
local zone is modelled as the identity (UTC local zone). -/
def epochToDateTime (t : Nat) : DateTime :=
  let days := t / 86400
  let secs := t % 86400
  let z := days + 719468
  let era := z / 146097
  let doe := z % 146097
  let yoe := (doe - doe / 1460 + doe / 36524 - doe / 146096) / 365
  let y := yoe + era * 400
  let doy := doe - (365 * yoe + yoe / 4 - yoe / 100)
  let mp := (5 * doy + 2) / 153
  let d := doy - (153 * mp + 2) / 5 + 1
  let m := if mp < 10 then mp + 3 else mp - 9
  { year := if m ≤ 2 then y + 1 else y
  , month := m
  , day := d
  , hour := secs / 3600
  , minute := secs % 3600 / 60
  , second := secs % 60 }

/-- `_filesystem_timestamp` from metadata.py. Python's `if birthtime:` is
falsy for both `None` and `0`, so a zero birth time also falls back to
modification time. -/
def _filesystem_timestamp (st : Stat) : DateTime × TimestampSource :=
  match st.st_birthtime with
  | some b =>
    if b != 0 then (epochToDateTime b, TimestampSource.file_creation)
    else (epochToDateTime st.fallback_time, TimestampSource.file_modification)
  | none => (epochToDateTime st.fallback_time, TimestampSource.file_modification)

/-- What `_extract_image_metadata` returned for the file: an optional
timestamp, optional cleaned `Make`/`Model` strings, and a source tag. The
EXIF reading itself is I/O, so the tuple is an oracle input. -/
structure ImageExtractResult where
  captured_at : Option DateTime := none
  make : Option String := none
  model : Option String := none
  source : TimestampSource := TimestampSource.unknown
deriving DecidableEq, Repr

/-- What one of `_extract_video_metadata` / `_extract_audio_metadata` /
`_extract_document_metadata` returned: optional timestamp plus source tag. -/
structure TimestampProbe where
  captured_at : Option DateTime := none
  source : TimestampSource := TimestampSource.unknown
deriving DecidableEq, Repr

/-- All the I/O the extractors of metadata.py perform for one file, given as
oracle data: the per-format extractor outcomes and the `stat` result. -/
structure FileProbe where
  image : ImageExtractResult := {}
  video : TimestampProbe := {}
  audio : TimestampProbe := {}
  document : TimestampProbe := {}
  stat : Stat := {}
deriving DecidableEq, Repr

/-- The `if/elif` extractor dispatch inside `extract_metadata`: the tuple
`(captured_at, camera_make, camera_model, timestamp_source)` after the
dispatch and before the filesystem fallback. The `other` type leaves the
initial `(None, None, None, UNKNOWN)`. -/
def _dispatch_extract (media_type : MediaType) (probe : FileProbe) :
    Option DateTime × Option String × Option String × TimestampSource :=
  match media_type with
  | .image => (probe.image.captured_at, probe.image.make, probe.image.model, probe.image.source)
  | .video => (probe.video.captured_at, none, none, probe.video.source)
  | .audio => (probe.audio.captured_at, none, none, probe.audio.source)
  | .document => (probe.document.captured_at, none, none, probe.document.source)
  | .other => (none, none, none, TimestampSource.unknown)

/-- `extract_metadata` from metadata.py, with the extractor I/O supplied by
`probe`. -/
def extract_metadata (path : PathParts) (probe : FileProbe) : MediaMetadata :=
  let media_type := detect_media_type path
  let category := resolve_category media_type
  let dispatched := _dispatch_extract media_type probe
  let camera_make := dispatched.2.1
  let camera_model := dispatched.2.2.1
  let resolved :=
    match dispatched.1 with
    | some dt => (dt, dispatched.2.2.2)
    | none => _filesystem_timestamp probe.stat
  { source_path := path
  , media_type := media_type
  , category := category
  , captured_at := resolved.1
  , camera_make := camera_make
  , camera_model := camera_model
  , original_name := some path.name
  , timestamp_source := resolved.2 }

/-- The `action` literal of `OrganizerConfig` (`Literal["move", "copy", "link"]`). -/
inductive Action
  | move
  | copy
  | link
deriving DecidableEq, Repr

/-- `OrganizerConfig` from config.py (paths as strings, `extra` as an
association list standing for the Python dict). -/
structure OrganizerConfig where
  source : String
  destination : String
  action : Action := Action.move
  template : String := "\x7byear\x7d/\x7bmonth:02d\x7d"
  dry_run : Bool := false
  recursive : Bool := true
  follow_symlinks : Bool := false
  include_extensions : List String := []
  exclude_extensions : List String := []
  extra : List (String × String) := []

/-- `TemplateProfile` from config.py. -/
structure TemplateProfile where
  name : String
  template : String
  description : Option String := none
deriving DecidableEq, Repr

/-- Generic first-match association lookup (dict read). -/
def lookupStr {α : Type} : List (String × α) → String → Option α
  | [], _ => none
  | (k', v) :: rest, k => if k' = k then some v else lookupStr rest k

/-- `OrganizerConfig.resolve_template` from config.py. -/
def resolve_template (c : OrganizerConfig) (profiles : List (String × TemplateProfile)) : String :=
  match lookupStr DEFAULT_TEMPLATES c.template with
  | some t => t
  | none =>
    match lookupStr profiles c.template with
    | some p => p.template
    | none => c.template

/-- `FileResult` from organizer.py. -/
structure FileResult where
  source : String
  destination : String
  status : String
  message : Option String := none
deriving DecidableEq, Repr

/-- `OrganizeSummary` from organizer.py. -/
structure OrganizeSummary where
  results : List FileResult := []
deriving DecidableEq, Repr

/-- `OrganizeSummary.moved`. -/
def OrganizeSummary.moved (s : OrganizeSummary) : Nat :=
  s.results.countP (fun r => r.status == "moved")

/-- `OrganizeSummary.copied`. -/
def OrganizeSummary.copied (s : OrganizeSummary) : Nat :=
  s.results.countP (fun r => r.status == "copied")

/-- `OrganizeSummary.linked`. -/
def OrganizeSummary.linked (s : OrganizeSummary) : Nat :=
  s.results.countP (fun r => r.status == "linked")

/-- `OrganizeSummary.skipped`. -/
def OrganizeSummary.skipped (s : OrganizeSummary) : Nat :=
  s.results.countP (fun r => r.status == "skipped")

/-- `OrganizeSummary.failed`. -/
def OrganizeSummary.failed (s : OrganizeSummary) : Nat :=
  s.results.countP (fun r => r.status == "failed")

/-- `OrganizeSummary.dry_run`. -/
def OrganizeSummary.dry_run (s : OrganizeSummary) : Nat :=
  s.results.countP (fun r => r.status == "dry-run")

/-- `OrganizeSummary.total`. -/
def OrganizeSummary.total (s : OrganizeSummary) : Nat := s.results.length

/-- A filesystem write performed by the organizer; the effect list of a run
records them in program order. -/
inductive FsEffect
  | mkdirP (dir : String)
  | moveFile (src dst : String)
  | copyFile (src dst : String)
  | linkFile (src dst : String)
deriving DecidableEq, Repr

/-- `MediaOrganizer` from organizer.py: the config plus the resolved template. -/
structure MediaOrganizer where
  config : OrganizerConfig
  template : String

/-- `MediaOrganizer.__init__`: stores the config and resolves the template
against `DEFAULT_TEMPLATES` and the profiles. -/
def MediaOrganizer.init (config : OrganizerConfig)
    (profiles : List (String × TemplateProfile)) : MediaOrganizer :=
  { config := config, template := resolve_template config profiles }

/-- The filename used for the n-th collision candidate:
`destination_dir / f"\x7bstem\x7d_\x7bcounter\x7d\x7bsuffix\x7d"`. -/
def collName (dir stem suffix : String) (n : Nat) : String :=
  dir ++ "/" ++ stem ++ "_" ++ toString n ++ suffix

/-- The `while candidate.exists()` loop of `_resolve_destination`, unrolled on
fuel: while the candidate exists, move to the next numbered candidate. With
exhausted fuel the current candidate is returned unchecked; every theorem
that uses the loop's result assumes enough fuel for the run it describes. -/
def probeLoop (existsF : String → Bool) (dir stem suffix : String) :
    Nat → String → Nat → String
  | 0, candidate, _ => candidate
  | fuel + 1, candidate, counter =>
    if existsF candidate then
      probeLoop existsF dir stem suffix fuel (collName dir stem suffix counter) (counter + 1)
    else candidate

/-- The tail of `_resolve_destination` once `destination_dir` is chosen:
`mkdir(parents=True, exist_ok=True)` (recorded as an effect), then the
collision loop starting from `destination_dir / filename` with counter 1. -/
def finishDestination (existsF : String → Bool) (fuel : Nat) (m : MediaMetadata)
    (dir : String) : String × List FsEffect :=
  let filename := m.source_path.name
  let candidate := probeLoop existsF dir m.stem m.suffix fuel (dir ++ "/" ++ filename) 1
  (candidate, [FsEffect.mkdirP dir])

/-- `MediaOrganizer._resolve_destination` from organizer.py. `existsF` is the
`Path.exists()` oracle for this file's probes; `Path.resolve()`
normalization is modelled as the identity on the joined path string. A
`ValueError` from template validation becomes `Except.error`. -/
def _resolve_destination (o : MediaOrganizer) (existsF : String → Bool) (fuel : Nat)
    (m : MediaMetadata) : Except String (String × List FsEffect) :=
  if m.has_reliable_timestamp then
    match render_template m o.template o.config.extra with
    | Except.error e => Except.error e
    | Except.ok relative =>
      Except.ok (finishDestination existsF fuel m (o.config.destination ++ "/" ++ relative))
  else
    Except.ok (finishDestination existsF fuel m (o.config.destination ++ "/" ++ "unknown_date"))

/-- The dry-run message of `_apply_action`. -/
def DRY_RUN_MESSAGE : String := "Se omitió el movimiento por estar en modo dry-run."

/-- `MediaOrganizer._apply_action` from organizer.py. `ioErr` is the outcome
of the filesystem primitive for the configured action: `none` when the
call returns normally, `some msg` when it raises (caught and turned into a
`failed` result; the failed primitive's partial effects are not modelled).
The initial `status = "skipped"` of the Python code is overwritten on every
path before the result is built. -/
def _apply_action (o : MediaOrganizer) (m : MediaMetadata) (destination : String)
    (ioErr : Option String) : FileResult × List FsEffect :=
  let source := m.source_path.full
  if o.config.dry_run then
    ({ source := source, destination := destination, status := "dry-run",
       message := some DRY_RUN_MESSAGE }, [])
  else
    match ioErr with
    | some e =>
      ({ source := source, destination := destination, status := "failed",
         message := some e }, [])
    | none =>
      match o.config.action with
      | Action.move =>
        ({ source := source, destination := destination, status := "moved",
           message := none }, [FsEffect.moveFile source destination])
      | Action.copy =>
        ({ source := source, destination := destination, status := "copied",
           message := none }, [FsEffect.copyFile source destination])
      | Action.link =>
        ({ source := source, destination := destination, status := "linked",
           message := none }, [FsEffect.linkFile source destination])

/-- One file of an `organize` run with its oracle data: the path, the
extractor I/O (`Except.error` when `extract_metadata` itself raises, e.g.
a failing `stat`), the `Path.exists()` snapshot seen by this file's
collision probes, and the action primitive's outcome. -/
structure FileJob where
  path : PathParts
  probe : Except String FileProbe
  existsF : String → Bool
  ioErr : Option String := none

/-- The body of `organize`'s per-file loop: `extract_metadata`,
`_resolve_destination`, `_apply_action`, with the surrounding
`try/except` turning any raised error into a `failed` result whose
destination is the source path. -/
def organizeFile (o : MediaOrganizer) (fuel : Nat) (job : FileJob) :
    FileResult × List FsEffect :=
  match job.probe with
  | Except.error e =>
    ({ source := job.path.full, destination := job.path.full, status := "failed",
       message := some e }, [])
  | Except.ok probe =>
    let m := extract_metadata job.path probe
    match _resolve_destination o job.existsF fuel m with
    | Except.error e =>
      ({ source := job.path.full, destination := job.path.full, status := "failed",
         message := some e }, [])
    | Except.ok (destination, effs) =>
      let applied := _apply_action o m destination job.ioErr
      (applied.1, effs ++ applied.2)

/-- `MediaOrganizer.organize` from organizer.py: one `FileResult` per input
file, in order, plus the filesystem effects of the whole run. -/
def organize (o : MediaOrganizer) (fuel : Nat) (jobs : List FileJob) :
    OrganizeSummary × List FsEffect :=
  let pairs := jobs.map (organizeFile o fuel)
  ({ results := pairs.map Prod.fst }, (pairs.map Prod.snd).flatten)

/-! Concrete fixtures mirroring the repository's test scenarios. -/

/-- A source file `/src/photo.jpg`. -/
def srcPath : PathParts := { dir := "/src", stem := "photo", suffix := ".jpg" }

/-- Extractor outcome of a JPEG with EXIF timestamp 2023-01-02 12:00:00. -/
def exifProbe : FileProbe :=
  { image := { captured_at := some ⟨2023, 1, 2, 12, 0, 0⟩,
               source := TimestampSource.metadata } }

/-- Extractor outcome of a file with no readable format metadata and only a
modification time in `stat`. -/
def unrelProbe : FileProbe := { stat := { st_mtime := 1672660800 } }

/-- Metadata of `/src/photo.jpg` with a reliable EXIF timestamp. -/
def mdExif : MediaMetadata := extract_metadata srcPath exifProbe

/-- Metadata of `/src/photo.jpg` with only a filesystem modification time. -/
def mdUnrel : MediaMetadata := extract_metadata srcPath unrelProbe

/-- The metadata fixture of tests/test_templates.py. -/
def mdCanon : MediaMetadata :=
  { source_path := { dir := "/tmp", stem := "photo", suffix := ".JPG" }
  , media_type := MediaType.image
  , category := MediaCategory.photos_videos
  , captured_at := ⟨2023, 5, 17, 14, 30, 0⟩
  , camera_make := some "Canon"
  , camera_model := some "EOS 5D"
  , original_name := some "photo.JPG"
  , timestamp_source := TimestampSource.metadata }

/-- Copy-action config named after tests/test_organizer.py. -/
def cfgCopy : OrganizerConfig :=
  { source := "/src", destination := "/dst", action := Action.copy, template := "default" }

/-- Organizer for `cfgCopy` with no extra profiles. -/
def orgCopy : MediaOrganizer := MediaOrganizer.init cfgCopy []

/-- Same as `cfgCopy` with dry-run enabled. -/
def cfgDry : OrganizerConfig := { cfgCopy with dry_run := true }

/-- Organizer for `cfgDry`. -/
def orgDry : MediaOrganizer := MediaOrganizer.init cfgDry []

/-- Same as `cfgCopy` with a template holding the unknown placeholder `foo`. -/
def cfgBad : OrganizerConfig := { cfgCopy with template := "\x7byear\x7d/\x7bfoo\x7d" }

/-- Organizer for `cfgBad`; the custom template resolves to itself. -/
def orgBad : MediaOrganizer := MediaOrganizer.init cfgBad []

/-- Job for `/src/photo.jpg` with only a modification time, empty destination. -/
def jobUnrel : FileJob :=
  { path := srcPath, probe := Except.ok unrelProbe, existsF := fun _ => false }

/-- Job for `/src/photo.jpg` with the EXIF timestamp, empty destination. -/
def jobExif : FileJob :=
  { path := srcPath, probe := Except.ok exifProbe, existsF := fun _ => false }

/-! Theorems for the claims. -/

/-- C1: the claim states that a file with an unreliable timestamp is routed to
`<destination>/<category_folder>/unknown_date/<filename>`. The code joins
`unknown_date` directly onto the configured destination with no category
folder: the resolved destination for the photos-and-videos fixture is
`/dst/unknown_date/photo.jpg`, not `/dst/Fotos_y_Videos/unknown_date/photo.jpg`
as the repository's own test `test_media_organizer_sends_unreliable_files_to_unknown`
expects. -/
theorem C1_unknown_date_destination_omits_category :
    mdUnrel.has_reliable_timestamp = false
    ∧ mdUnrel.category = MediaCategory.photos_videos
    ∧ _resolve_destination orgCopy (fun _ => false) 10 mdUnrel =
        Except.ok ("/dst/unknown_date/photo.jpg", [FsEffect.mkdirP "/dst/unknown_date"])
    ∧ "/dst/unknown_date/photo.jpg" ≠
        "/dst/" ++ MediaCategory.folder_name mdUnrel.category ++ "/unknown_date/photo.jpg" := by
  decide

/-- C3: the claim states that `category` is a recognized placeholder. In the
code it is not: `available_placeholders` omits it and rendering the template
of `test_render_template_includes_category` raises the unknown-placeholder
`ValueError` instead of producing `Fotos_y_Videos/2023`. -/
theorem C3_category_placeholder_rejected :
    available_placeholders.contains "category" = false
    ∧ render_template mdCanon "\x7bcategory\x7d/\x7byear\x7d" [] =
        Except.error "El template contiene placeholders desconocidos: category" := by
  decide

/-- C4 counterexample: the claim states extra keys override no built-in
placeholder value. With `extra = {"year": "extra-wins"}` the rendered path is
`extra-wins`, not the metadata-derived `2023`: `context.update(extra)` lets
extras shadow built-ins. -/
theorem C4_extra_overrides_builtin_counterexample :
    render_template mdCanon "\x7byear\x7d" [("year", "extra-wins")] = Except.ok "extra-wins"
    ∧ render_template mdCanon "\x7byear\x7d" [] = Except.ok "2023" := by
  decide

/-- Looking up the key just assigned finds the new value. -/
lemma ctxLookup_setKey_self (l : List (String × CtxVal)) (k : String) (v : CtxVal) :
    ctxLookup (setKey l k v) k = some v := by
  induction l with
  | nil => simp [setKey, ctxLookup]
  | cons hd tl ih =>
    obtain ⟨k', v'⟩ := hd
    by_cases h : k' = k <;> simp [setKey, ctxLookup, h, ih]

/-- Assigning one key leaves lookups of other keys unchanged. -/
lemma ctxLookup_setKey_ne (l : List (String × CtxVal)) (k k' : String) (v : CtxVal)
    (h : k ≠ k') : ctxLookup (setKey l k v) k' = ctxLookup l k' := by
  induction l with
  | nil => simp [setKey, ctxLookup, h]
  | cons hd tl ih =>
    obtain ⟨k1, v1⟩ := hd
    by_cases h1 : k1 = k
    · subst h1; simp [setKey, ctxLookup, h]
    · simp [setKey, ctxLookup, h1, ih]

/-- Updating with entries that do not bind a key leaves its lookup unchanged. -/
lemma ctxLookup_dictUpdate_notMem (extra : List (String × String)) (k : String)
    (h : k ∉ extra.map Prod.fst) :
    ∀ base, ctxLookup (dictUpdate base extra) k = ctxLookup base k := by
  induction extra with
  | nil => intro base; simp [dictUpdate]
  | cons hd tl ih =>
    obtain ⟨k1, v1⟩ := hd
    intro base
    simp only [List.map_cons, List.mem_cons] at h
    push_neg at h
    rw [dictUpdate, ih h.2, ctxLookup_setKey_ne _ _ _ _ (Ne.symm h.1)]

/-- An updated binding wins over any base binding: with duplicate-free extras
binding `k` to `v`, the dict after `update` maps `k` to the string `v`. -/
lemma ctxLookup_dictUpdate_mem (extra : List (String × String)) (k : String) (v : String)
    (hnd : (extra.map Prod.fst).Nodup) (hk : lookupStr extra k = some v) :
    ∀ base, ctxLookup (dictUpdate base extra) k = some (CtxVal.strVal v) := by
  induction extra with
  | nil => simp [lookupStr] at hk
  | cons hd tl ih =>
    obtain ⟨k1, v1⟩ := hd
    simp only [List.map_cons, List.nodup_cons] at hnd
    rw [lookupStr] at hk
    intro base
    by_cases h1 : k1 = k
    · subst h1
      rw [if_pos rfl] at hk
      injection hk with hv
      subst hv
      rw [dictUpdate, ctxLookup_dictUpdate_notMem tl k1 hnd.1, ctxLookup_setKey_self]
    · rw [if_neg h1] at hk
      rw [dictUpdate]
      exact ih hnd.2 hk _

/-- C4 amended: merging `extra` into the context follows `dict.update`
semantics, so an extra key takes precedence over the built-in placeholder of
the same name: when the (duplicate-free) extras bind `k` to `v`, the context
value for `k` is the extra string `v`, whatever the metadata says. -/
theorem C4_extra_precedence_amended (m : MediaMetadata) (extra : List (String × String))
    (k : String) (v : String) (hnd : (extra.map Prod.fst).Nodup)
    (hk : lookupStr extra k = some v) :
    ctxLookup (build_context m extra) k = some (CtxVal.strVal v) := by
  unfold build_context
  exact ctxLookup_dictUpdate_mem extra k v hnd hk _

/-- C4 amended witness: concrete instance, extras bind `year` to `x`. -/
theorem C4_extra_precedence_amended_witness :
    ctxLookup (build_context mdCanon [("year", "x")]) "year" = some (CtxVal.strVal "x") :=
  C4_extra_precedence_amended mdCanon [("year", "x")] "year" "x" (by decide) (by decide)

/-- C8: `render_template` is deterministic: equal metadata, template and
extras yield the same rendered relative path. -/
theorem C8_render_deterministic (m1 m2 : MediaMetadata) (t1 t2 : String)
    (e1 e2 : List (String × String)) (hm : m1 = m2) (ht : t1 = t2) (he : e1 = e2) :
    render_template m1 t1 e1 = render_template m2 t2 e2 := by
  subst hm; subst ht; subst he; rfl

/-- C8 witness: the default template at the test fixture, twice. -/
theorem C8_render_deterministic_witness :
    render_template mdCanon "\x7byear\x7d/\x7bmonth:02d\x7d" [] =
      render_template mdCanon "\x7byear\x7d/\x7bmonth:02d\x7d" []
    ∧ render_template mdCanon "\x7byear\x7d/\x7bmonth:02d\x7d" [] = Except.ok "2023/05" :=
  ⟨C8_render_deterministic mdCanon mdCanon _ _ [] [] rfl rfl rfl, by decide⟩

/-- The effect list of a successful destination resolution is exactly one
recursive directory creation. -/
lemma resolve_ok_effects (o : MediaOrganizer) (existsF : String → Bool) (fuel : Nat)
    (m : MediaMetadata) (dest : String) (effs : List FsEffect)
    (h : _resolve_destination o existsF fuel m = Except.ok (dest, effs)) :
    ∃ d, effs = [FsEffect.mkdirP d] := by
  unfold _resolve_destination at h
  by_cases hr : m.has_reliable_timestamp = true
  · rw [if_pos hr] at h
    cases hrt : render_template m o.template o.config.extra with
    | error e => rw [hrt] at h; simp at h
    | ok rel =>
      rw [hrt] at h
      simp only [Except.ok.injEq, finishDestination, Prod.mk.injEq] at h
      exact ⟨_, h.2.symm⟩
  · rw [if_neg hr] at h
    simp only [Except.ok.injEq, finishDestination, Prod.mk.injEq] at h
    exact ⟨_, h.2.symm⟩

/-- In dry-run mode `_apply_action` reports a dry-run result and performs no
filesystem action. -/
lemma apply_action_dry (o : MediaOrganizer) (m : MediaMetadata) (dest : String)
    (ioErr : Option String) (h : o.config.dry_run = true) :
    _apply_action o m dest ioErr =
      ({ source := m.source_path.full, destination := dest, status := "dry-run",
         message := some DRY_RUN_MESSAGE }, []) := by
  unfold _apply_action
  rw [if_pos h]

/-- Every `_apply_action` result status is one of the five live statuses. -/
lemma apply_action_status (o : MediaOrganizer) (m : MediaMetadata) (dest : String)
    (ioErr : Option String) :
    (_apply_action o m dest ioErr).1.status = "moved"
    ∨ (_apply_action o m dest ioErr).1.status = "copied"
    ∨ (_apply_action o m dest ioErr).1.status = "linked"
    ∨ (_apply_action o m dest ioErr).1.status = "dry-run"
    ∨ (_apply_action o m dest ioErr).1.status = "failed" := by
  unfold _apply_action
  by_cases h : o.config.dry_run = true
  · rw [if_pos h]; tauto
  · rw [if_neg h]
    cases ioErr with
    | some e => tauto
    | none => cases ha : o.config.action <;> tauto

/-- In dry-run mode every effect of one file's processing is a directory
creation. -/
lemma organizeFile_dry_effects (o : MediaOrganizer) (fuel : Nat) (job : FileJob)
    (h : o.config.dry_run = true) :
    ∀ e ∈ (organizeFile o fuel job).2, ∃ d, e = FsEffect.mkdirP d := by
  cases hp : job.probe with
  | error err => simp [organizeFile, hp]
  | ok fp =>
    cases hrd : _resolve_destination o job.existsF fuel (extract_metadata job.path fp) with
    | error err => simp [organizeFile, hp, hrd]
    | ok p =>
      obtain ⟨dest, effs⟩ := p
      obtain ⟨d, hd⟩ := resolve_ok_effects _ _ _ _ _ _ hrd
      subst hd
      intro e he
      simp only [organizeFile, hp, hrd, apply_action_dry _ _ _ _ h, List.append_nil,
        List.mem_singleton] at he
      exact ⟨d, he⟩

/-- In dry-run mode every per-file result is `dry-run` or, when extraction or
resolution raised, `failed`. -/
lemma organizeFile_dry_status (o : MediaOrganizer) (fuel : Nat) (job : FileJob)
    (h : o.config.dry_run = true) :
    (organizeFile o fuel job).1.status = "dry-run"
    ∨ (organizeFile o fuel job).1.status = "failed" := by
  cases hp : job.probe with
  | error err => simp [organizeFile, hp]
  | ok fp =>
    cases hrd : _resolve_destination o job.existsF fuel (extract_metadata job.path fp) with
    | error err => simp [organizeFile, hp, hrd]
    | ok p =>
      obtain ⟨dest, effs⟩ := p
      simp [organizeFile, hp, hrd, apply_action_dry _ _ _ _ h]

/-- C2 counterexample: the claim states dry-run mode creates nothing on the
filesystem, but `_resolve_destination` runs `mkdir(parents=True,
exist_ok=True)` before the dry-run check, so a dry run still creates the
destination directory. -/
theorem C2_dry_run_counterexample :
    orgDry.config.dry_run = true
    ∧ (organize orgDry 10 [jobUnrel]).2 = [FsEffect.mkdirP "/dst/unknown_date"]
    ∧ (organize orgDry 10 [jobUnrel]).2 ≠ [] := by
  decide

/-- C2 amended: in dry-run mode `organize` moves, copies and links nothing
(the only filesystem writes are the destination-directory creations performed
by the resolver), every result is `dry-run` or — when extraction or template
validation raised — `failed`, and every file whose resolution succeeds gets
the `dry-run` status with the would-be destination recorded in the result. -/
theorem C2_dry_run_amended (o : MediaOrganizer) (fuel : Nat) (jobs : List FileJob)
    (h : o.config.dry_run = true) :
    (∀ e ∈ (organize o fuel jobs).2, ∃ d, e = FsEffect.mkdirP d)
    ∧ (∀ r ∈ (organize o fuel jobs).1.results,
        r.status = "dry-run" ∨ r.status = "failed")
    ∧ (∀ (job : FileJob) (fp : FileProbe), job.probe = Except.ok fp →
        ∀ dest effs,
          _resolve_destination o job.existsF fuel (extract_metadata job.path fp) =
            Except.ok (dest, effs) →
          (organizeFile o fuel job).1 =
            { source := job.path.full, destination := dest, status := "dry-run",
              message := some DRY_RUN_MESSAGE }) := by
  refine ⟨?_, ?_, ?_⟩
  · intro e he
    simp only [organize, List.map_map, List.mem_flatten, List.mem_map] at he
    obtain ⟨l, ⟨job, hjob, hl⟩, hel⟩ := he
    subst hl
    exact organizeFile_dry_effects o fuel job h e hel
  · intro r hr
    simp only [organize, List.map_map, List.mem_map] at hr
    obtain ⟨job, hjob, hr'⟩ := hr
    subst hr'
    exact organizeFile_dry_status o fuel job h
  · intro job fp hp dest effs hrd
    simp only [organizeFile, hp, hrd, apply_action_dry _ _ _ _ h]
    rfl

/-- C2 amended witness: the dry-run fixture run, applied at its concrete
resolution. -/
theorem C2_dry_run_amended_witness :
    (organizeFile orgDry 10 jobUnrel).1 =
      { source := "/src/photo.jpg", destination := "/dst/unknown_date/photo.jpg",
        status := "dry-run", message := some DRY_RUN_MESSAGE } :=
  (C2_dry_run_amended orgDry 10 [jobUnrel] (by decide)).2.2 jobUnrel unrelProbe rfl
    "/dst/unknown_date/photo.jpg" [FsEffect.mkdirP "/dst/unknown_date"] (by decide)

/-- A template with unknown placeholders has a non-true emptiness check. -/
lemma unknown_placeholders_isEmpty_false (template : String) (extra : List (String × String))
    (hbad : unknown_placeholders template extra ≠ []) :
    (unknown_placeholders template extra).isEmpty = false := by
  cases hl : unknown_placeholders template extra with
  | nil => exact absurd hl hbad
  | cons a l => rfl

/-- Rendering with a template holding unknown placeholders raises the
validation `ValueError` with the deduplicated, sorted placeholder list. -/
lemma render_template_bad (m : MediaMetadata) (template : String)
    (extra : List (String × String)) (hbad : unknown_placeholders template extra ≠ []) :
    render_template m template extra =
      Except.error (validationMessage (unknown_placeholders template extra)) := by
  simp [render_template, _validate_template, unknown_placeholders_isEmpty_false template extra hbad]

/-- C5: with a configured template containing an unknown placeholder,
`organize` still yields exactly one result per input file, and every file
whose processing reaches template rendering (extraction succeeded and the
timestamp is reliable) gets a `failed` result whose message is the validation
error naming every unknown placeholder, deduplicated and sorted; other files
are unaffected, so the batch is never aborted. -/
theorem C5_invalid_template_per_file_failure (o : MediaOrganizer) (fuel : Nat)
    (jobs : List FileJob)
    (hbad : unknown_placeholders o.template o.config.extra ≠ []) :
    (organize o fuel jobs).1.results.length = jobs.length
    ∧ ∀ (job : FileJob) (fp : FileProbe), job.probe = Except.ok fp →
        (extract_metadata job.path fp).has_reliable_timestamp = true →
        (organizeFile o fuel job).1.status = "failed"
        ∧ (organizeFile o fuel job).1.message =
            some (validationMessage (unknown_placeholders o.template o.config.extra)) := by
  refine ⟨by simp [organize], ?_⟩
  intro job fp hp hrel
  have hres : _resolve_destination o job.existsF fuel (extract_metadata job.path fp) =
      Except.error (validationMessage (unknown_placeholders o.template o.config.extra)) := by
    unfold _resolve_destination
    rw [if_pos hrel, render_template_bad _ _ _ hbad]
  constructor <;> simp [organizeFile, hp, hres]

/-- C5 witness: the `\x7byear\x7d/\x7bfoo\x7d` template fixture with a reliable job. -/
theorem C5_invalid_template_per_file_failure_witness :
    (organize orgBad 10 [jobExif]).1.results.length = 1
    ∧ (organizeFile orgBad 10 jobExif).1.status = "failed"
    ∧ (organizeFile orgBad 10 jobExif).1.message =
        some "El template contiene placeholders desconocidos: foo" := by
  have h := C5_invalid_template_per_file_failure orgBad 10 [jobExif] (by decide)
  have h2 := h.2 jobExif exifProbe rfl (by decide)
  exact ⟨h.1, h2.1, h2.2.trans (by decide)⟩

/-- The collision loop started at candidate `j` with counter `j + 1` returns
candidate `n` when candidates `j` to `n - 1` exist, candidate `n` does not,
and at least `n - j + 1` probes of fuel remain. -/
lemma probeLoop_finds (existsF : String → Bool) (dir stem suffix : String) :
    ∀ (fuel j n : Nat), j ≤ n → n + 1 ≤ j + fuel →
      (∀ k, j ≤ k → k < n → existsF (collName dir stem suffix k) = true) →
      existsF (collName dir stem suffix n) = false →
      probeLoop existsF dir stem suffix fuel (collName dir stem suffix j) (j + 1) =
        collName dir stem suffix n := by
  intro fuel
  induction fuel with
  | zero => intro j n hjn hfuel _ _; omega
  | succ f ih =>
    intro j n hjn hfuel hall hfree
    by_cases hje : j = n
    · subst hje
      simp [probeLoop, hfree]
    · have hjlt : j < n := lt_of_le_of_ne hjn hje
      have hj : existsF (collName dir stem suffix j) = true := hall j le_rfl hjlt
      simp only [probeLoop, hj, if_true]
      exact ih (j + 1) n hjlt (by omega) (fun k hk1 hk2 => hall k (by omega) hk2) hfree

/-- C6: collision resolution inside `_resolve_destination`. If
`directory/filename` does not exist it is the returned destination; otherwise
the destination is `directory/{stem}_{n}{ext}` for the smallest `n ≥ 1` whose
path does not exist (expressed by requiring candidates `1..n-1` to exist and
candidate `n` not to), given enough fuel for `n` probes of the unbounded
Python loop. -/
theorem C6_collision_resolution (existsF : String → Bool) (fuel : Nat) (m : MediaMetadata)
    (dir : String) :
    (existsF (dir ++ "/" ++ m.source_path.name) = false →
      finishDestination existsF fuel m dir =
        (dir ++ "/" ++ m.source_path.name, [FsEffect.mkdirP dir]))
    ∧ (∀ n, 1 ≤ n → n + 1 ≤ fuel →
        existsF (dir ++ "/" ++ m.source_path.name) = true →
        (∀ k, 1 ≤ k → k < n → existsF (collName dir m.stem m.suffix k) = true) →
        existsF (collName dir m.stem m.suffix n) = false →
        finishDestination existsF fuel m dir =
          (collName dir m.stem m.suffix n, [FsEffect.mkdirP dir])) := by
  constructor
  · intro hfree
    cases fuel with
    | zero => rfl
    | succ f => simp [finishDestination, probeLoop, hfree]
  · intro n h1 hfuel hexists hall hfree
    obtain ⟨f, rfl⟩ : ∃ f, fuel = f + 1 := ⟨fuel - 1, by omega⟩
    unfold finishDestination
    simp only [probeLoop, hexists, if_true]
    rw [probeLoop_finds existsF dir m.stem m.suffix f 1 n h1 (by omega)
      (fun k hk1 hk2 => hall k hk1 hk2) hfree]

/-- Existence oracle with only `/d/photo.jpg` present. -/
def exists1 : String → Bool := fun s => s == "/d/photo.jpg"

/-- Existence oracle with `/d/photo.jpg` and `/d/photo_1.jpg` present. -/
def exists2 : String → Bool := fun s => s == "/d/photo.jpg" || s == "/d/photo_1.jpg"

/-- C6 witness: one existing `photo.jpg` resolves to `photo_1.jpg`; with
`photo_1.jpg` also present it resolves to `photo_2.jpg`. -/
theorem C6_collision_resolution_witness :
    finishDestination exists1 10 mdUnrel "/d" = ("/d/photo_1.jpg", [FsEffect.mkdirP "/d"])
    ∧ finishDestination exists2 10 mdUnrel "/d" = ("/d/photo_2.jpg", [FsEffect.mkdirP "/d"]) := by
  constructor
  · have h := (C6_collision_resolution exists1 10 mdUnrel "/d").2 1 (by decide) (by decide)
      (by decide) (fun k hk1 hk2 => absurd hk2 (by omega)) (by decide)
    exact h.trans (by decide)
  · have h := (C6_collision_resolution exists2 10 mdUnrel "/d").2 2 (by decide) (by decide)
      (by decide) ?_ (by decide)
    · exact h.trans (by decide)
    · intro k hk1 hk2
      have hk : k = 1 := by omega
      subst hk
      decide

/-- The filesystem fallback yields source `file_creation` exactly when a
non-zero birth time is exposed, otherwise `file_modification`. -/
lemma filesystem_timestamp_source (st : Stat) :
    ((_filesystem_timestamp st).2 = TimestampSource.file_creation
      ∨ (_filesystem_timestamp st).2 = TimestampSource.file_modification)
    ∧ ((_filesystem_timestamp st).2 = TimestampSource.file_creation ↔
        ∃ b, st.st_birthtime = some b ∧ b ≠ 0)
    ∧ ((_filesystem_timestamp st).2 = TimestampSource.file_modification →
        (_filesystem_timestamp st).1 = epochToDateTime st.fallback_time) := by
  unfold _filesystem_timestamp
  cases hb : st.st_birthtime with
  | none => simp
  | some b =>
    by_cases hz : b = 0
    · subst hz; simp
    · simp [hz]

/-- C7: when the dispatched format-specific extractor yields no timestamp,
`extract_metadata` populates `captured_at` from the filesystem fallback
(which is total, so `captured_at` is never absent), and the resulting
`timestamp_source` is `file_creation` exactly when the platform exposes a
(non-zero) birth time and `file_modification` otherwise — never `metadata`;
in the modification case the timestamp comes from mtime, or ctime when mtime
is zero. -/
theorem C7_filesystem_fallback (path : PathParts) (probe : FileProbe)
    (h : (_dispatch_extract (detect_media_type path) probe).1 = none) :
    (extract_metadata path probe).captured_at = (_filesystem_timestamp probe.stat).1
    ∧ (extract_metadata path probe).timestamp_source = (_filesystem_timestamp probe.stat).2
    ∧ ((extract_metadata path probe).timestamp_source = TimestampSource.file_creation
        ∨ (extract_metadata path probe).timestamp_source = TimestampSource.file_modification)
    ∧ (extract_metadata path probe).timestamp_source ≠ TimestampSource.metadata
    ∧ ((extract_metadata path probe).timestamp_source = TimestampSource.file_creation ↔
        ∃ b, probe.stat.st_birthtime = some b ∧ b ≠ 0)
    ∧ ((extract_metadata path probe).timestamp_source = TimestampSource.file_modification →
        (extract_metadata path probe).captured_at = epochToDateTime probe.stat.fallback_time) := by
  have hcap : (extract_metadata path probe).captured_at = (_filesystem_timestamp probe.stat).1 := by
    simp [extract_metadata, h]
  have hsrc : (extract_metadata path probe).timestamp_source =
      (_filesystem_timestamp probe.stat).2 := by
    simp [extract_metadata, h]
  refine ⟨hcap, hsrc, ?_, ?_, ?_, ?_⟩
  · rw [hsrc]; exact (filesystem_timestamp_source probe.stat).1
  · rw [hsrc]
    rcases (filesystem_timestamp_source probe.stat).1 with h1 | h1 <;> rw [h1] <;> decide
  · rw [hsrc]; exact (filesystem_timestamp_source probe.stat).2.1
  · rw [hsrc, hcap]; exact (filesystem_timestamp_source probe.stat).2.2

/-- An unclassified file `/src/archive.xyz`. -/
def xyzPath : PathParts := { dir := "/src", stem := "archive", suffix := ".xyz" }

/-- Probe for `archive.xyz`: no extractor data, zero mtime, ctime 7. -/
def xyzProbe : FileProbe := { stat := { st_mtime := 0, st_ctime := 7 } }

/-- C7 witness: the `other`-type fixture falls back to ctime with source
`file_modification`. -/
theorem C7_filesystem_fallback_witness :
    (extract_metadata xyzPath xyzProbe).captured_at = (_filesystem_timestamp xyzProbe.stat).1
    ∧ (extract_metadata xyzPath xyzProbe).timestamp_source = TimestampSource.file_modification := by
  have h := C7_filesystem_fallback xyzPath xyzProbe (by decide)
  exact ⟨h.1, h.2.1.trans (by decide)⟩

/-- Every per-file result status is one of the five live statuses. -/
lemma organizeFile_status (o : MediaOrganizer) (fuel : Nat) (job : FileJob) :
    (organizeFile o fuel job).1.status = "moved"
    ∨ (organizeFile o fuel job).1.status = "copied"
    ∨ (organizeFile o fuel job).1.status = "linked"
    ∨ (organizeFile o fuel job).1.status = "dry-run"
    ∨ (organizeFile o fuel job).1.status = "failed" := by
  cases hp : job.probe with
  | error err => simp [organizeFile, hp]
  | ok fp =>
    cases hrd : _resolve_destination o job.existsF fuel (extract_metadata job.path fp) with
    | error err => simp [organizeFile, hp, hrd]
    | ok p =>
      obtain ⟨dest, effs⟩ := p
      have := apply_action_status o (extract_metadata job.path fp) dest job.ioErr
      simpa [organizeFile, hp, hrd] using this

/-- C9: the status `skipped` is unreachable: every result of `organize` has
one of the statuses moved, copied, linked, dry-run or failed, and the
summary's `skipped` count is always zero (its initialization in
`_apply_action` is overwritten on every path). -/
theorem C9_skipped_unreachable (o : MediaOrganizer) (fuel : Nat) (jobs : List FileJob) :
    (∀ r ∈ (organize o fuel jobs).1.results,
        r.status ≠ "skipped"
        ∧ (r.status = "moved" ∨ r.status = "copied" ∨ r.status = "linked"
            ∨ r.status = "dry-run" ∨ r.status = "failed"))
    ∧ (organize o fuel jobs).1.skipped = 0 := by
  have hmem : ∀ r ∈ (organize o fuel jobs).1.results,
      r.status = "moved" ∨ r.status = "copied" ∨ r.status = "linked"
        ∨ r.status = "dry-run" ∨ r.status = "failed" := by
    intro r hr
    simp only [organize, List.map_map, List.mem_map] at hr
    obtain ⟨job, hjob, hr'⟩ := hr
    subst hr'
    exact organizeFile_status o fuel job
  constructor
  · intro r hr
    refine ⟨?_, hmem r hr⟩
    rcases hmem r hr with h | h | h | h | h <;> rw [h] <;> decide
  · simp only [OrganizeSummary.skipped]
    rw [List.countP_eq_zero]
    intro r hr
    rcases hmem r hr with h | h | h | h | h <;> rw [h] <;> decide

/-- C9 witness: the copy fixture run has no skipped results. -/
theorem C9_skipped_unreachable_witness :
    (organize orgCopy 10 [jobExif]).1.skipped = 0 :=
  (C9_skipped_unreachable orgCopy 10 [jobExif]).2

/-- A successful action primitive never yields the `failed` status. -/
lemma apply_action_none_not_failed (o : MediaOrganizer) (m : MediaMetadata) (dest : String) :
    (_apply_action o m dest none).1.status ≠ "failed" := by
  simp only [_apply_action]
  by_cases hd : o.config.dry_run = true
  · simp [hd]
  · simp only [hd]
    cases ha : o.config.action <;> simp

/-- C10: a file with an unreliable timestamp never reaches template
rendering: its resolved destination does not depend on the template at all,
resolution succeeds into the `unknown_date` directory even when the template
holds unknown placeholders, and — provided extraction and the action
primitive succeed — the file's result is never `failed`, while a file with a
reliable timestamp fails with the validation message under the same bad
template. -/
theorem C10_unreliable_bypasses_template (o : MediaOrganizer) (t' : String)
    (existsF : String → Bool) (fuel : Nat) (m : MediaMetadata)
    (hu : m.has_reliable_timestamp = false) :
    _resolve_destination o existsF fuel m =
      _resolve_destination { o with template := t' } existsF fuel m
    ∧ _resolve_destination o existsF fuel m =
        Except.ok (finishDestination existsF fuel m (o.config.destination ++ "/" ++ "unknown_date"))
    ∧ (∀ m', m'.has_reliable_timestamp = true →
        unknown_placeholders o.template o.config.extra ≠ [] →
        _resolve_destination o existsF fuel m' =
          Except.error (validationMessage (unknown_placeholders o.template o.config.extra)))
    ∧ (∀ (job : FileJob) (fp : FileProbe), job.probe = Except.ok fp →
        job.ioErr = none →
        (extract_metadata job.path fp).has_reliable_timestamp = false →
        (organizeFile o fuel job).1.status ≠ "failed") := by
  have hresolve : ∀ (o' : MediaOrganizer) (ex : String → Bool) (m0 : MediaMetadata),
      m0.has_reliable_timestamp = false →
      _resolve_destination o' ex fuel m0 =
        Except.ok (finishDestination ex fuel m0
          (o'.config.destination ++ "/" ++ "unknown_date")) := by
    intro o' ex m0 h0
    unfold _resolve_destination
    rw [if_neg (by simp [h0])]
  refine ⟨?_, hresolve o existsF m hu, ?_, ?_⟩
  · rw [hresolve o existsF m hu, hresolve { o with template := t' } existsF m hu]
  · intro m' hrel hbad
    unfold _resolve_destination
    rw [if_pos hrel, render_template_bad _ _ _ hbad]
  · intro job fp hp hio hurel
    have hres := hresolve o job.existsF (extract_metadata job.path fp) hurel
    simp only [organizeFile, hp, hres, hio]
    exact apply_action_none_not_failed o _ _

/-- C10 witness: the bad-template fixture: the unreliable job succeeds with a
dry-run-independent destination while the reliable metadata fails. -/
theorem C10_unreliable_bypasses_template_witness :
    _resolve_destination orgBad (fun _ => false) 10 mdUnrel =
      _resolve_destination { orgBad with template := "\x7byear\x7d" } (fun _ => false) 10 mdUnrel
    ∧ _resolve_destination orgBad (fun _ => false) 10 mdExif =
        Except.error "El template contiene placeholders desconocidos: foo"
    ∧ (organizeFile orgBad 10 jobUnrel).1.status ≠ "failed" := by
  have h := C10_unreliable_bypasses_template orgBad "\x7byear\x7d" (fun _ => false) 10 mdUnrel
    (by decide)
  refine ⟨h.1, ?_, ?_⟩
  · exact (h.2.2.1 mdExif (by decide) (by decide)).trans (by decide)
  · exact h.2.2.2 jobUnrel unrelProbe rfl rfl (by decide)

end MediaOrg
